import Mathlib

/-
Verification of the mutual-fund-analyzer metrics-and-ranking pipeline.

Shallow embedding of the Python sources under src/mutual-fund-analyzer/src:
  * ranking/fund_ranker.py        (FundRanker)
  * analyzer/performance_analyzer.py (PerformanceAnalyzer)
  * analyzer/consistency_analyzer.py (ConsistencyAnalyzer)
  * analyzer/benchmark_analyzer.py   (BenchmarkAnalyzer)
  * data_fetcher/mf_api_fetcher.py   (MFAPIFetcher)
  * data_fetcher/cache_manager.py    (CacheManager)

Modelling conventions:
  * Python floats are modelled as exact numbers (Rat where no square root is
    needed, Real otherwise); float NaN, which arises only from pandas
    sample-std on fewer than 2 points, is modelled as Option.none and is
    propagated the way IEEE NaN propagates through the cited code paths.
  * pandas DataFrames/Series become Lists; a NAV table with a date column
    becomes a List of (date, nav) pairs with dates in days as integers.
  * pandas sort_values(by, ascending=False) computes a stable ascending
    argsort of the column and reverses the resulting indexer
    (pandas.core.sorting.nargsort).  numpy argsort with the default
    kind=quicksort runs plain insertion sort (stable) on arrays of fewer
    than 17 elements, so for the list sizes appearing in any concrete
    statement below the stable model is exact.  We embed the stable
    ascending argsort with List.insertionSort.
-/

namespace MFA

/- Basic list statistics shared by the analyzers (pandas mean/std, ddof=1).
These return real numbers because the standard deviation needs a square
root; they are noncomputable in Lean, and concrete instances are evaluated
with simp/norm_num instead of decide. -/

noncomputable section RealStats

/-- Arithmetic mean of a list, pandas Series.mean for a nonempty series. -/
def meanR (l : List ℝ) : ℝ := l.sum / l.length

/-- Sample variance with ddof = 1 (the pandas Series.var default),
meaningful only for lists of length at least 2. -/
def sampleVarR (l : List ℝ) : ℝ :=
  (l.map (fun x => (x - meanR l) ^ 2)).sum / ((l.length : ℝ) - 1)

/-- Sample standard deviation, pandas Series.std for length at least 2. -/
def sampleStdR (l : List ℝ) : ℝ := Real.sqrt (sampleVarR l)

/-- pandas Series.std with ddof = 1: NaN (modelled as none) on fewer than
2 points, otherwise the square root of the sample variance. -/
def sampleStd (l : List ℝ) : Option ℝ :=
  if l.length < 2 then none else some (sampleStdR l)

/-- Percentage changes between consecutive points:
Series.pct_change().dropna() * 100 on a list of values.  dropna removes
exactly the leading NaN produced by pct_change. -/
def pctChanges (l : List ℝ) : List ℝ :=
  List.zipWith (fun prev cur => (cur / prev - 1) * 100) l l.tail

end RealStats

/- PerformanceAnalyzer (src/analyzer/performance_analyzer.py). -/

/-- PerformanceAnalyzer.calculate_returns for one period (in years), on a
NAV value series assumed monthly: when the series is longer than 12*period
points it compares the latest NAV (iloc[-1]) with the NAV 12*period steps
from the end (iloc[-(period*12)]), else the period return is None.  The
values are rationals: the formula is rational arithmetic. -/
def perfPeriodReturn (nav : List ℚ) (period : ℕ) : Option ℚ :=
  if period * 12 < nav.length then
    some ((nav.getD (nav.length - 1) 0 / nav.getD (nav.length - period * 12) 0 - 1)
      * 100)
  else none

noncomputable section PerfSharpe

/-- PerformanceAnalyzer.calculate_sharpe_ratio on a periodic-return series.
none models float NaN: pandas std with ddof = 1 is NaN on a single point,
the NaN compares unequal to 0, and the division then propagates NaN into
the result.  An empty series or a zero standard deviation yields 0.0. -/
def perfSharpe (riskFreeRate : ℝ) (returns : List ℝ) : Option ℝ :=
  if returns.length = 0 then some 0
  else
    match sampleStd returns with
    | none => none
    | some s =>
      if s = 0 then some 0
      else some (meanR (returns.map (fun x => x - riskFreeRate / 12)) / s
        * Real.sqrt 12)

/-- PerformanceAnalyzer.calculate_max_drawdown helper: running maximum of a
series (pandas Series.expanding().max()). -/
def runningMaxAux (cur : ℝ) : List ℝ → List ℝ
  | [] => []
  | x :: xs => max cur x :: runningMaxAux (max cur x) xs

/-- Running maximum of a list, first element included. -/
def runningMax : List ℝ → List ℝ
  | [] => []
  | x :: xs => x :: runningMaxAux x xs

/-- Minimum of a list of reals, 0 for the empty list (the empty case is
always guarded in the embedded code paths). -/
def listMinR : List ℝ → ℝ
  | [] => 0
  | x :: xs => xs.foldl min x

/-- PerformanceAnalyzer.calculate_max_drawdown: absolute value of the most
negative running drawdown (nav - peak)/peak*100, 0.0 for an empty series. -/
def maxDrawdown (navs : List ℝ) : ℝ :=
  if navs.length = 0 then 0
  else |listMinR (List.zipWith (fun nav peak => (nav - peak) / peak * 100)
    navs (runningMax navs))|

end PerfSharpe

/- MFAPIFetcher (src/data_fetcher/mf_api_fetcher.py).  NAV tables are lists
of (date, nav) pairs, dates counted in days. -/

/-- Maximum of a list of integer dates, 0 for the empty list (guarded). -/
def listMaxZ (l : List ℤ) : ℤ :=
  match l with
  | [] => 0
  | x :: xs => xs.foldl max x

/-- MFAPIFetcher.calculate_returns for one period given as a day count:
latest row is the first row carrying the maximal date; the past NAV is the
last row dated at or before latest_date - days; with no such row, or a
non-positive past NAV, the return is 0.0 (never None). -/
def mfPeriodReturn (nav : List (ℤ × ℚ)) (days : ℤ) : ℚ :=
  let latestDate := listMaxZ (nav.map (fun p => p.1))
  let latestNav := ((nav.filter (fun p => p.1 = latestDate)).headD (0, 0)).2
  let pastData := nav.filter (fun p => p.1 ≤ latestDate - days)
  match pastData.getLast? with
  | some p => if 0 < p.2 then (latestNav / p.2 - 1) * 100 else 0
  | none => 0

/-- MFAPIFetcher.calculate_returns: the four period returns (1y/3y/5y/10y
as 365/1095/1825/3650 days), all 0.0 for an empty table. -/
def mfCalculateReturns (nav : List (ℤ × ℚ)) : ℚ × ℚ × ℚ × ℚ :=
  if nav.length = 0 then (0, 0, 0, 0)
  else (mfPeriodReturn nav 365, mfPeriodReturn nav (365 * 3),
        mfPeriodReturn nav (365 * 5), mfPeriodReturn nav (365 * 10))

/-- The record returned by MFAPIFetcher.calculate_risk_metrics. -/
structure RiskMetrics where
  sharpe_ratio : ℝ
  standard_deviation : ℝ
  max_drawdown : ℝ
  risk_score : ℝ

noncomputable section MfRisk

/-- Sort a NAV table by its date column (DataFrame.sort_values of the date
column).  Dates within one fund are pairwise distinct per the data model,
so the choice of sorting algorithm does not matter; we use the stable
insertion sort. -/
def sortByDate (nav : List (ℤ × ℝ)) : List (ℤ × ℝ) :=
  nav.insertionSort (fun p q => p.1 ≤ q.1)

/-- MFAPIFetcher.calculate_risk_metrics: zeros on fewer than 2 rows or
fewer than 2 periodic returns; otherwise the annualized sample standard
deviation std*sqrt(12), a Sharpe ratio whose denominator is that annualized
value (so its own sqrt(12) factor cancels), the maximum drawdown of the
date-sorted NAV column, and risk score min(100, std*2 + mdd*0.5). -/
def mfRiskMetrics (nav : List (ℤ × ℝ)) (riskFreeRate : ℝ) : RiskMetrics :=
  if nav.length < 2 then ⟨0, 0, 0, 0⟩
  else
    let navs := (sortByDate nav).map (fun p => p.2)
    let rets := pctChanges navs
    if rets.length < 2 then ⟨0, 0, 0, 0⟩
    else
      let stdDev := sampleStdR rets * Real.sqrt 12
      let sharpe :=
        if 0 < stdDev then
          meanR (rets.map (fun x => x - riskFreeRate / 12)) / stdDev * Real.sqrt 12
        else 0
      let mdd := maxDrawdown navs
      ⟨sharpe, stdDev, mdd, min 100 (stdDev * 2 + mdd * 0.5)⟩

end MfRisk

/- ConsistencyAnalyzer (src/analyzer/consistency_analyzer.py). -/

noncomputable section Consistency

/-- Body of ConsistencyAnalyzer.calculate_consistency_score applied to the
periodic-return series derived from the NAV values: 0.0 on fewer than 12
returns or a zero mean, else min(max(0, 100 - |std/mean|*50), 100). -/
def consistencyCore (rets : List ℝ) : ℝ :=
  if rets.length < 12 then 0
  else
    let meanReturn := meanR rets
    let stdReturn := sampleStdR rets
    if meanReturn = 0 then 0
    else
      let cv := |stdReturn / meanReturn|
      min (max 0 (100 - cv * 50)) 100

/-- ConsistencyAnalyzer.calculate_consistency_score on a NAV value series:
0.0 when the series has fewer than 12 points, else the score of its
percentage-change series. -/
def calculateConsistencyScore (nav : List ℝ) : ℝ :=
  if nav.length < 12 then 0 else consistencyCore (pctChanges nav)

end Consistency

/- BenchmarkAnalyzer (src/analyzer/benchmark_analyzer.py). -/

/-- Boolean test that the first character list is the start of the second. -/
def startsWithL : List Char → List Char → Bool
  | [], _ => true
  | _ :: _, [] => false
  | a :: as, b :: bs => a == b && startsWithL as bs

/-- Boolean substring test on character lists (Python in on str). -/
def containsL (needle : List Char) : List Char → Bool
  | [] => startsWithL needle []
  | c :: rest => startsWithL needle (c :: rest) || containsL needle rest

/-- Lowercased character list of a string (Python str.lower; the fund names
involved are ASCII). -/
def lowerStr (s : String) : List Char := s.toList.map Char.toLower

/-- BenchmarkAnalyzer.identify_benchmark: the BENCHMARK_MAPPING keys are
tried as substrings of the lowercased fund name in dict insertion order;
with no name match, the category lookup applies, defaulting to NIFTY 50.
The Python signature is Optional but every path returns a string. -/
def identifyBenchmark (fundName category : String) : String :=
  let n := lowerStr fundName
  if containsL (("nifty 50").toList) n then "NIFTY 50"
  else if containsL (("nifty").toList) n then "NIFTY 50"
  else if containsL (("sensex").toList) n then "S&P BSE SENSEX"
  else if containsL (("bse sensex").toList) n then "S&P BSE SENSEX"
  else if containsL (("nifty 100").toList) n then "NIFTY 100"
  else if containsL (("nifty midcap").toList) n then "NIFTY Midcap 100"
  else if containsL (("nifty smallcap").toList) n then "NIFTY Smallcap 100"
  else if containsL (("nifty next 50").toList) n then "NIFTY Next 50"
  else
    match category with
    | "largecap" => "NIFTY 50"
    | "midcap" => "NIFTY Midcap 100"
    | "smallcap" => "NIFTY Smallcap 100"
    | "index_funds" => "NIFTY 50"
    | "elss" => "NIFTY 500"
    | "hybrid" => "NIFTY 50 Hybrid Composite Debt 50:50"
    | "debt" => "CRISIL Composite Bond Fund Index"
    | "sectoral" => "NIFTY 500"
    | _ => "NIFTY 50"

/-- The record returned by BenchmarkAnalyzer.calculate_benchmark_metrics.
fund_annualized_return is present only in the sufficient-history branch. -/
structure BenchMetrics where
  alpha : ℝ
  tracking_error : ℝ
  benchmark_outperformance : ℝ
  benchmark_name : String
  fund_annualized_return : Option ℝ

noncomputable section Bench

/-- Annualized return of a periodic-return series as computed inline in
calculate_benchmark_metrics: ((prod(1 + r/100))^(12/n) - 1) * 100. -/
def annualizedReturn (rets : List ℝ) : ℝ :=
  (((rets.map (fun r => 1 + r / 100)).prod) ^ ((12 : ℝ) / rets.length) - 1) * 100

/-- Python falsy-or on the optional benchmark name: None and the empty
string both fall back to N/A. -/
def benchNameOr (bm : Option String) : String :=
  match bm with
  | some s => if s = "" then "N/A" else s
  | none => "N/A"

/-- BenchmarkAnalyzer.calculate_benchmark_metrics: no benchmark series is
ever supplied (fetch_benchmark_data returns None), so alpha and tracking
error are always 0.0; with at least 12 derived periodic returns the
benchmark_outperformance field carries the fund's own annualized return as
a proxy, otherwise it is 0.0 as well. -/
def calcBenchmarkMetrics (nav : List (ℤ × ℝ)) (benchmarkName : Option String) :
    BenchMetrics :=
  if nav.length = 0 then ⟨0, 0, 0, benchNameOr benchmarkName, none⟩
  else
    let rets := pctChanges ((sortByDate nav).map (fun p => p.2))
    if rets.length < 12 then ⟨0, 0, 0, benchNameOr benchmarkName, none⟩
    else
      ⟨0, 0, annualizedReturn rets, benchNameOr benchmarkName,
        some (annualizedReturn rets)⟩

end Bench

/- CacheManager (src/data_fetcher/cache_manager.py).  The durable store is
modelled per path: a stored file is missing, unreadable/corrupted (any read
or parse raises, the except branch returns None), or holds a parsed value.
Timestamps are rationals measured in days; datetime subtraction followed by
timedelta.days is the floor of the age in days. -/

/-- State of one file of the cache directory. -/
inductive StoredFile (α : Type) where
  | missing : StoredFile α
  | corrupted : StoredFile α
  | ok : α → StoredFile α
deriving DecidableEq

/-- Whether the path exists on disk (Path.exists). -/
def StoredFile.present {α : Type} : StoredFile α → Bool
  | .missing => false
  | _ => true

/-- A cached NAV series, as re-read from the CSV file. -/
abbrev NavSeries : Type := List (ℤ × ℚ)

/-- The all-funds index table, opaque to the cache logic. -/
abbrev FundsTable : Type := List String

/-- The cache directory: one NAV CSV and one metadata JSON per scheme code,
plus the single all-funds CSV and its metadata JSON.  Metadata parses to
its timestamp. -/
structure CacheState where
  navFile : ℤ → StoredFile NavSeries
  navMeta : ℤ → StoredFile ℚ
  fundsFile : StoredFile FundsTable
  fundsMeta : StoredFile ℚ

/-- CacheManager.is_fresh: the age now - timestamp, truncated to whole days
by timedelta.days (a floor), must be below FRESHNESS_DAYS = 30. -/
def isFresh (now timestamp : ℚ) : Bool := ⌊now - timestamp⌋ < 30

/-- Shared shape of CacheManager.load_nav_data and load_all_funds: both
paths must exist, the metadata must parse, the entry must be fresh, and the
data file must parse; any failure degrades to None. -/
def loadCached {α : Type} (dataFile : StoredFile α) (metaFile : StoredFile ℚ)
    (now : ℚ) : Option α :=
  if dataFile.present && metaFile.present then
    match metaFile with
    | .ok ts =>
      if isFresh now ts then
        match dataFile with
        | .ok v => some v
        | _ => none
      else none
    | _ => none
  else none

/-- CacheManager.load_nav_data; the second component records that a read
never mutates the store. -/
def loadNavData (st : CacheState) (now : ℚ) (schemeCode : ℤ) :
    Option NavSeries × CacheState :=
  (loadCached (st.navFile schemeCode) (st.navMeta schemeCode) now, st)

/-- CacheManager.load_all_funds; reads never mutate the store. -/
def loadAllFunds (st : CacheState) (now : ℚ) : Option FundsTable × CacheState :=
  (loadCached st.fundsFile st.fundsMeta now, st)

end MFA

namespace MFA

/- FundRanker (src/ranking/fund_ranker.py).  Fund rows are flat metric
mappings; a key that is absent from the row or holds None is modelled as
Option.none.  Metric values are rationals: every ranker formula is rational
arithmetic.  risk_score is produced by calculate_risk_metrics and is never
None when the key is present, so Option.none models the absent key. -/

/-- One row of the funds DataFrame as consumed by FundRanker: the metric
fields the two scoring functions read. -/
structure FundData where
  returns_1y : Option ℚ
  returns_3y : Option ℚ
  returns_5y : Option ℚ
  sharpe_ratio : Option ℚ
  standard_deviation : Option ℚ
  risk_score : Option ℚ
deriving DecidableEq

/-- Ranking weights, config ranking_weights with the defaults hard-coded in
fund_ranker.py: returns_1y 0.15, returns_3y 0.20, returns_5y 0.25,
sharpe_ratio 0.20, consistency 0.10, risk_score 0.10. -/
structure RankWeights where
  w1y : ℚ
  w3y : ℚ
  w5y : ℚ
  wSharpe : ℚ
  wCons : ℚ
  wRisk : ℚ
deriving DecidableEq

/-- The default weights used when the config file supplies none. -/
def defaultWeights : RankWeights :=
  ⟨15 / 100, 20 / 100, 25 / 100, 20 / 100, 10 / 100, 10 / 100⟩

/-- One summand of the returns-based score: value times weight together with
the weight that was consumed, (0, 0) when the field is absent or None. -/
def retContrib (o : Option ℚ) (w : ℚ) : ℚ × ℚ :=
  match o with
  | some r => (r * w, w)
  | none => (0, 0)

/-- FundRanker.calculate_returns_score: weighted sum of the non-null
trailing returns, divided by the total weight used when that is positive,
capped at 100. -/
def calculateReturnsScore (w : RankWeights) (d : FundData) : ℚ :=
  let c1 := retContrib d.returns_1y w.w1y
  let c3 := retContrib d.returns_3y w.w3y
  let c5 := retContrib d.returns_5y w.w5y
  let score := c1.1 + c3.1 + c5.1
  let totalWeight := c1.2 + c3.2 + c5.2
  let score := if 0 < totalWeight then score / totalWeight else score
  min score 100

/-- Claim-side formula for the returns-based score, written from the spec
words: weighted average of the non-null trailing returns divided by the sum
of the weights actually used, capped at 100.  Rat division by zero is 0,
matching the code when no return is present. -/
def specReturnsScore (w : RankWeights) (d : FundData) : ℚ :=
  let c1 := retContrib d.returns_1y w.w1y
  let c3 := retContrib d.returns_3y w.w3y
  let c5 := retContrib d.returns_5y w.w5y
  min ((c1.1 + c3.1 + c5.1) / (c1.2 + c3.2 + c5.2)) 100

/-- Returns summand of the comprehensive score: the guard
"key in fund_data and fund_data[key]" is a Python truthiness check, so a
present value of exactly 0 is skipped like an absent one; the source
expression is (return / 100) * weight * 100. -/
def compRetTerm (o : Option ℚ) (wg : ℚ) : ℚ :=
  match o with
  | some r => if r ≠ 0 then r / 100 * wg * 100 else 0
  | none => 0

/-- Sharpe summand of the comprehensive score, truthiness-guarded:
min(sharpe / 2, 1) * weight * 100. -/
def compSharpeTerm (o : Option ℚ) (wg : ℚ) : ℚ :=
  match o with
  | some r => if r ≠ 0 then min (r / 2) 1 * wg * 100 else 0
  | none => 0

/-- Volatility summand of the comprehensive score, truthiness-guarded:
max(0, 1 - std_dev / 30) * weight * 100. -/
def compStdTerm (o : Option ℚ) (wg : ℚ) : ℚ :=
  match o with
  | some r => if r ≠ 0 then max 0 (1 - r / 30) * wg * 100 else 0
  | none => 0

/-- Risk-score summand of the comprehensive score: guarded by key presence
only ("if key in fund_data"), not by truthiness: (1 - risk/100)*weight*100. -/
def compRiskTerm (o : Option ℚ) (wg : ℚ) : ℚ :=
  match o with
  | some r => (1 - r / 100) * wg * 100
  | none => 0

/-- FundRanker.calculate_comprehensive_score: sum of the field
contributions, not normalized by the weight used, capped at 100. -/
def calculateComprehensiveScore (w : RankWeights) (d : FundData) : ℚ :=
  min (compRetTerm d.returns_1y w.w1y + compRetTerm d.returns_3y w.w3y
    + compRetTerm d.returns_5y w.w5y + compSharpeTerm d.sharpe_ratio w.wSharpe
    + compStdTerm d.standard_deviation w.wCons
    + compRiskTerm d.risk_score w.wRisk) 100

/-- Claim-side returns contribution: return x weight when the return is
available (non-null), nothing when it is absent. -/
def specRetTerm (o : Option ℚ) (wg : ℚ) : ℚ :=
  match o with
  | some r => r * wg
  | none => 0

/-- Claim-side Sharpe contribution: min(sharpe/2, 1) x weight x 100 when
available. -/
def specSharpeTerm (o : Option ℚ) (wg : ℚ) : ℚ :=
  match o with
  | some r => min (r / 2) 1 * wg * 100
  | none => 0

/-- Claim-side inverse-volatility contribution:
max(0, 1 - stddev/30) x weight x 100 when available. -/
def specStdTerm (o : Option ℚ) (wg : ℚ) : ℚ :=
  match o with
  | some r => max 0 (1 - r / 30) * wg * 100
  | none => 0

/-- Claim-side inverse risk-score contribution:
(1 - risk_score/100) x weight x 100 when available. -/
def specRiskTerm (o : Option ℚ) (wg : ℚ) : ℚ :=
  match o with
  | some r => (1 - r / 100) * wg * 100
  | none => 0

/-- Claim-side formula for the comprehensive score, written from the spec
words: for each available (non-null) field its stated contribution, summed
without weight normalization and capped at 100. -/
def specComprehensiveScore (w : RankWeights) (d : FundData) : ℚ :=
  min (specRetTerm d.returns_1y w.w1y + specRetTerm d.returns_3y w.w3y
    + specRetTerm d.returns_5y w.w5y + specSharpeTerm d.sharpe_ratio w.wSharpe
    + specStdTerm d.standard_deviation w.wCons
    + specRiskTerm d.risk_score w.wRisk) 100

/-- Order of the output rows of FundRanker.rank_funds, as positions into the
input list: pandas sort_values(score, ascending=False) computes the stable
ascending argsort of the scores and reverses it (pandas nargsort; numpy
default quicksort is insertion sort, hence stable, below 17 elements). -/
def rankOrder (score : FundData → ℚ) (funds : List FundData) : List ℕ :=
  let scores := funds.map score
  ((List.range funds.length).insertionSort
    (fun i j => scores.getD i 0 ≤ scores.getD j 0)).reverse

/-- A fund row with every metric key absent, the getD fallback (positions
produced by rankOrder are always in range, so it is never read). -/
def emptyFund : FundData := ⟨none, none, none, none, none, none⟩

/-- FundRanker.rank_funds: each output row is the fund row, its score, and
rank equal to the 1-based position after the descending sort. -/
def rankFunds (score : FundData → ℚ) (funds : List FundData) :
    List (FundData × ℚ × ℕ) :=
  let scores := funds.map score
  (rankOrder score funds).enum.map
    (fun pi => (funds.getD pi.2 emptyFund, scores.getD pi.2 0, pi.1 + 1))

end MFA

namespace MFA

/- Concrete instances used by the witnesses and counterexamples below. -/

/-- Scenario B fund with trailing returns 10/20/30. -/
def fundA : FundData := ⟨some 10, some 20, some 30, none, none, none⟩

/-- Scenario B fund with trailing returns 15/25/35. -/
def fundB : FundData := ⟨some 15, some 25, some 35, none, none, none⟩

/-- Scenario B fund with trailing returns 12/22/32. -/
def fundC : FundData := ⟨some 12, some 22, some 32, none, none, none⟩

/-- A fund whose only metric is a 1y return of 10; its returns-based score
is 10. -/
def tieFundFst : FundData := ⟨some 10, none, none, none, none, none⟩

/-- A distinct fund whose only metric is a 3y return of 10; its
returns-based score is also 10. -/
def tieFundSnd : FundData := ⟨none, some 10, none, none, none, none⟩

/-- A fund row whose only present metric is a standard deviation of
exactly 0 (a constant-NAV fund). -/
def zeroStdFund : FundData := ⟨none, none, none, none, some 0, none⟩

/-- A fund row with every metric present and nonzero. -/
def fullFund : FundData := ⟨some 12, some 14, some 16, some 1, some 18, some 40⟩

/-- A one-point NAV series stored in the example cache. -/
def exampleSeries : NavSeries := [(0, 10)]

/-- A cache whose NAV entries are all well-formed with timestamp 0 (written
at day 0). -/
def exampleCache : CacheState :=
  ⟨fun _ => .ok exampleSeries, fun _ => .ok 0, .missing, .missing⟩

/-- A cache whose NAV data files and all-funds index file are corrupted
while the matching metadata is fine and fresh at any nonnegative time. -/
def corruptDataCache : CacheState :=
  ⟨fun _ => .corrupted, fun _ => .ok 0, .corrupted, .ok 0⟩

/-- A 13-point NAV table with dates 0..12 and constant NAV 1. -/
noncomputable def bench13 : List (ℤ × ℝ) :=
  [(0, 1), (1, 1), (2, 1), (3, 1), (4, 1), (5, 1), (6, 1), (7, 1), (8, 1),
   (9, 1), (10, 1), (11, 1), (12, 1)]

end MFA

namespace MFA

/- Helper lemmas shared by several claims. -/

theorem length_pctChanges (l : List ℝ) : (pctChanges l).length = l.length - 1 := by
  simp only [pctChanges, List.length_zipWith, List.length_tail]
  omega

theorem length_sortByDate (nav : List (ℤ × ℝ)) :
    (sortByDate nav).length = nav.length := by
  simp [sortByDate, List.length_insertionSort]

/-- Claim C10: every fund name whose lowercase form contains the substring
nifty resolves to the benchmark NIFTY 50 regardless of the category,
because the key nifty is tried before the more specific keys nifty 100,
nifty midcap, nifty smallcap and nifty next 50 (the only earlier key,
nifty 50, maps to the same benchmark), making those name-based mappings
unreachable. -/
theorem nifty_keyword_shadows_specific_benchmarks
    (fundName category : String)
    (h : containsL (("nifty").toList) (lowerStr fundName) = true) :
    identifyBenchmark fundName category = "NIFTY 50" := by
  unfold identifyBenchmark
  by_cases h50 : containsL (("nifty 50").toList) (lowerStr fundName) = true
  · rw [if_pos h50]
  · rw [if_neg h50, if_pos h]

theorem nifty_keyword_shadows_specific_benchmarks_witness :
    containsL (("nifty").toList) (lowerStr ("ABC Nifty Midcap Fund")) = true ∧
    identifyBenchmark ("ABC Nifty Midcap Fund") ("midcap") = "NIFTY 50" :=
  ⟨by decide, nifty_keyword_shadows_specific_benchmarks _ _ (by decide)⟩

/-- Claim C8: the fund named HDFC Large Cap Fund in category largecap
resolves to the benchmark NIFTY 50; with no benchmark series supplied
(calculate_benchmark_metrics never receives one), alpha and tracking error
are always reported as 0.0, and whenever at least 12 periodic returns can
be derived the benchmark_outperformance field carries the fund's own
annualized return as a proxy. -/
theorem benchmark_identity_and_neutral_metrics :
    identifyBenchmark ("HDFC Large Cap Fund") ("largecap") = "NIFTY 50" ∧
    (∀ (nav : List (ℤ × ℝ)) (bm : Option String),
      (calcBenchmarkMetrics nav bm).alpha = 0 ∧
      (calcBenchmarkMetrics nav bm).tracking_error = 0) ∧
    (∀ (nav : List (ℤ × ℝ)) (bm : Option String),
      12 ≤ (pctChanges ((sortByDate nav).map (fun p => p.2))).length →
      (calcBenchmarkMetrics nav bm).benchmark_outperformance
        = annualizedReturn (pctChanges ((sortByDate nav).map (fun p => p.2)))) := by
  refine ⟨rfl, ?_, ?_⟩
  · intro nav bm
    unfold calcBenchmarkMetrics
    split
    · exact ⟨rfl, rfl⟩
    · dsimp only
      split
      · exact ⟨rfl, rfl⟩
      · exact ⟨rfl, rfl⟩
  · intro nav bm h
    unfold calcBenchmarkMetrics
    split
    · rename_i h0
      exfalso
      rw [List.length_eq_zero.mp h0] at h
      simp [sortByDate, List.insertionSort, pctChanges] at h
    · dsimp only
      split
      · rename_i hlt
        exfalso
        omega
      · rfl

theorem benchmark_identity_and_neutral_metrics_witness :
    12 ≤ (pctChanges ((sortByDate bench13).map (fun p => p.2))).length ∧
    (calcBenchmarkMetrics bench13 (some "NIFTY 50")).benchmark_outperformance
      = annualizedReturn (pctChanges ((sortByDate bench13).map (fun p => p.2))) := by
  have hlen : 12 ≤ (pctChanges ((sortByDate bench13).map (fun p => p.2))).length := by
    have h13 : bench13.length = 13 := by
      unfold bench13
      rfl
    rw [length_pctChanges, List.length_map, length_sortByDate, h13]
  exact ⟨hlen,
    benchmark_identity_and_neutral_metrics.2.2 bench13 (some "NIFTY 50") hlen⟩

/-- Claim C5: for a well-formed cache entry, load_nav_data returns the
stored series exactly when now - timestamp < 30 days (timedelta.days is a
floor, and floor(age) < 30 is equivalent to age < 30), the read never
mutates the store, and in particular an entry written 31 days ago reads as
absent while one written 15 days ago reads as present. -/
theorem cache_freshness_window_iff :
    (∀ (st : CacheState) (now ts : ℚ) (code : ℤ) (v : NavSeries),
      st.navFile code = .ok v → st.navMeta code = .ok ts →
      (((loadNavData st now code).1 = some v ↔ now - ts < 30) ∧
        (loadNavData st now code).2 = st)) ∧
    (loadNavData exampleCache 31 7).1 = none ∧
    (loadNavData exampleCache 15 7).1 = some exampleSeries := by
  refine ⟨?_, ?_, ?_⟩
  · intro st now ts code v hnav hmeta
    refine ⟨?_, rfl⟩
    unfold loadNavData loadCached
    rw [hnav, hmeta]
    have hiff : (isFresh now ts = true) ↔ now - ts < 30 := by
      unfold isFresh
      rw [decide_eq_true_eq]
      constructor
      · intro hf
        exact_mod_cast Int.floor_lt.mp hf
      · intro hf
        exact Int.floor_lt.mpr (by exact_mod_cast hf)
    by_cases hf : isFresh now ts
    · simp [StoredFile.present, hf, hiff.mp hf]
    · have hnot : ¬ (now - ts < 30) := fun hc => hf (hiff.mpr hc)
      simp [StoredFile.present, hf, hnot]
  · norm_num [loadNavData, loadCached, exampleCache, isFresh, StoredFile.present]
  · norm_num [loadNavData, loadCached, exampleCache, isFresh, StoredFile.present]

theorem cache_freshness_window_iff_witness :
    ((loadNavData exampleCache 31 7).1 = some exampleSeries ↔ (31 : ℚ) - 0 < 30) ∧
    (loadNavData exampleCache 31 7).2 = exampleCache :=
  cache_freshness_window_iff.1 exampleCache 31 0 7 exampleSeries rfl rfl

theorem loadCached_corrupted {α : Type} (df : StoredFile α) (mf : StoredFile ℚ)
    (now : ℚ) (h : df = .corrupted ∨ mf = .corrupted) :
    loadCached df mf now = none := by
  rcases h with h | h
  · subst h
    cases mf with
    | missing => rfl
    | corrupted => rfl
    | ok ts => by_cases hf : isFresh now ts <;> simp [loadCached, StoredFile.present, hf]
  · subst h
    cases df <;> rfl

/-- Claim C9: a corrupted NAV data file, NAV metadata file, all-funds data
file or all-funds metadata file makes the corresponding load return None (a
cache miss, the caller refetches) instead of an error; in the embedding the
reads are total functions into Option, mirroring the except-return-None
handlers in load_nav_data and load_all_funds. -/
theorem cache_corruption_degrades_to_miss :
    (∀ (st : CacheState) (now : ℚ) (code : ℤ),
      st.navFile code = .corrupted ∨ st.navMeta code = .corrupted →
      (loadNavData st now code).1 = none) ∧
    (∀ (st : CacheState) (now : ℚ),
      st.fundsFile = .corrupted ∨ st.fundsMeta = .corrupted →
      (loadAllFunds st now).1 = none) :=
  ⟨fun _ _ _ h => loadCached_corrupted _ _ _ h,
   fun _ _ h => loadCached_corrupted _ _ _ h⟩

theorem cache_corruption_degrades_to_miss_witness :
    (loadNavData corruptDataCache 0 1).1 = none ∧
    (loadAllFunds corruptDataCache 0).1 = none :=
  ⟨cache_corruption_degrades_to_miss.1 corruptDataCache 0 1 (Or.inl rfl),
   cache_corruption_degrades_to_miss.2 corruptDataCache 0 (Or.inl rfl)⟩

end MFA

namespace MFA

/- Helpers for the period-return and Sharpe claims. -/

theorem mfPeriodReturn_eq_zero_of_no_past (nav : List (ℤ × ℚ)) (days : ℤ)
    (h : ∀ p ∈ nav, listMaxZ (nav.map (fun q => q.1)) - days < p.1) :
    mfPeriodReturn nav days = 0 := by
  have hfil : nav.filter
      (fun p => p.1 ≤ listMaxZ (nav.map (fun q => q.1)) - days) = [] := by
    rw [List.filter_eq_nil_iff]
    intro p hp
    simp only [decide_eq_true_eq]
    exact not_le.mpr (h p hp)
  simp only [mfPeriodReturn, hfil, List.getLast?_nil]

theorem mfCalculateReturns_of_short (nav : List (ℤ × ℚ)) (h : nav.length < 2) :
    mfCalculateReturns nav = (0, 0, 0, 0) := by
  match nav, h with
  | [], _ => rfl
  | [p], _ =>
    have hz : ∀ days : ℤ, 0 < days → mfPeriodReturn [p] days = 0 := by
      intro days hd
      apply mfPeriodReturn_eq_zero_of_no_past
      intro q hq
      simp only [List.mem_singleton] at hq
      subst hq
      show listMaxZ ([q].map (fun x => x.1)) - days < q.1
      have : listMaxZ ([q].map (fun x => x.1)) = q.1 := rfl
      rw [this]
      omega
    unfold mfCalculateReturns
    rw [if_neg (by simp)]
    rw [hz 365 (by norm_num), hz (365 * 3) (by norm_num),
      hz (365 * 5) (by norm_num), hz (365 * 10) (by norm_num)]

theorem mfRiskMetrics_of_short (nav : List (ℤ × ℝ)) (r : ℝ)
    (h : nav.length < 2) : mfRiskMetrics nav r = ⟨0, 0, 0, 0⟩ := by
  unfold mfRiskMetrics
  rw [if_pos h]

theorem perfPeriodReturn_none_of_short (nav : List ℚ) (period : ℕ)
    (h : nav.length ≤ period * 12) : perfPeriodReturn nav period = none := by
  unfold perfPeriodReturn
  rw [if_neg (not_lt.mpr h)]

/-- Claim C1 counterexample: on the one-point NAV table [(0, 10)] there is
no data point at or before the 1-year-back target date, yet
MFAPIFetcher.calculate_returns reports every period return as 0.0 — its
return type has no null at all — while the claim demands null (not zero).
PerformanceAnalyzer.calculate_returns, by contrast, does give None. -/
theorem mf_returns_zero_on_insufficient_history_cex :
    mfCalculateReturns [(0, 10)] = (0, 0, 0, 0) ∧
    perfPeriodReturn [10] 1 = none :=
  ⟨rfl, rfl⟩

/-- Claim C1 amended: PerformanceAnalyzer.calculate_returns yields null on
insufficient history (at most 12*N points for the N-year return, hence on
every series of length < 2), but MFAPIFetcher.calculate_returns yields 0.0
(not null) whenever no point lies at or before the target date, and yields
0.0 for all four periods on series of length < 2; the ratio/score functions
of MFAPIFetcher.calculate_risk_metrics do return all zeros on series of
length < 2. -/
theorem returns_null_vs_zero_amended :
    (∀ (nav : List (ℤ × ℚ)) (days : ℤ),
      (∀ p ∈ nav, listMaxZ (nav.map (fun q => q.1)) - days < p.1) →
      mfPeriodReturn nav days = 0) ∧
    (∀ nav : List (ℤ × ℚ), nav.length < 2 → mfCalculateReturns nav = (0, 0, 0, 0)) ∧
    (∀ (nav : List (ℤ × ℝ)) (r : ℝ), nav.length < 2 →
      mfRiskMetrics nav r = ⟨0, 0, 0, 0⟩) ∧
    (∀ (nav : List ℚ) (period : ℕ), nav.length ≤ period * 12 →
      perfPeriodReturn nav period = none) :=
  ⟨mfPeriodReturn_eq_zero_of_no_past, mfCalculateReturns_of_short,
   mfRiskMetrics_of_short, perfPeriodReturn_none_of_short⟩

theorem returns_null_vs_zero_amended_witness :
    mfPeriodReturn [((0 : ℤ), (10 : ℚ))] 365 = 0 ∧
    perfPeriodReturn [(10 : ℚ)] 1 = none :=
  ⟨returns_null_vs_zero_amended.1 [(0, 10)] 365
    (by
      intro p hp
      simp only [List.mem_singleton] at hp
      subst hp
      norm_num [listMaxZ]),
   returns_null_vs_zero_amended.2.2.2 [10] 1 (by norm_num)⟩

theorem sum_map_sub (l : List ℝ) (c : ℝ) :
    (l.map (fun x => x - c)).sum = l.sum - l.length * c := by
  induction l with
  | nil => simp
  | cons a t ih =>
    simp only [List.map_cons, List.sum_cons, List.length_cons, ih]
    push_cast
    ring

theorem meanR_map_sub (l : List ℝ) (c : ℝ) (h : l ≠ []) :
    meanR (l.map (fun x => x - c)) = meanR l - c := by
  have hn : (l.length : ℝ) ≠ 0 := by
    have : l.length ≠ 0 := fun h0 => h (List.length_eq_zero.mp h0)
    exact_mod_cast this
  unfold meanR
  rw [List.length_map, sum_map_sub]
  field_simp

theorem perfSharpe_formula (r : ℝ) (l : List ℝ) (h2 : 2 ≤ l.length)
    (hs : sampleStdR l ≠ 0) :
    perfSharpe r l = some ((meanR l - r / 12) / sampleStdR l * Real.sqrt 12) := by
  have hne : l ≠ [] := by
    intro h0
    rw [h0] at h2
    simp at h2
  unfold perfSharpe sampleStd
  rw [if_neg (by omega), if_neg (by omega)]
  dsimp only
  rw [if_neg hs, meanR_map_sub _ _ hne]

theorem perfSharpe_zero_of_zero_std (r : ℝ) (l : List ℝ) (h2 : 2 ≤ l.length)
    (hs : sampleStdR l = 0) : perfSharpe r l = some 0 := by
  unfold perfSharpe sampleStd
  rw [if_neg (by omega), if_neg (by omega)]
  dsimp only
  rw [if_pos hs]

theorem mfSharpe_no_annualization (nav : List (ℤ × ℝ)) (r : ℝ)
    (h2 : 2 ≤ (pctChanges ((sortByDate nav).map (fun p => p.2))).length)
    (hs : 0 < sampleStdR (pctChanges ((sortByDate nav).map (fun p => p.2)))) :
    (mfRiskMetrics nav r).sharpe_ratio
      = (meanR (pctChanges ((sortByDate nav).map (fun p => p.2))) - r / 12)
        / sampleStdR (pctChanges ((sortByDate nav).map (fun p => p.2))) := by
  have hlen := length_pctChanges ((sortByDate nav).map (fun p => p.2))
  rw [List.length_map, length_sortByDate] at hlen
  have hnav : 2 ≤ nav.length := by omega
  have hne : pctChanges ((sortByDate nav).map (fun p => p.2)) ≠ [] := by
    intro h0
    rw [h0] at h2
    simp at h2
  have hrt12 : (0 : ℝ) < Real.sqrt 12 := Real.sqrt_pos.mpr (by norm_num)
  unfold mfRiskMetrics
  rw [if_neg (by omega)]
  dsimp only
  rw [if_neg (by omega)]
  dsimp only
  rw [if_pos (mul_pos hs hrt12), meanR_map_sub _ _ hne]
  field_simp
  ring

/-- Claim C3 counterexample: on the single-point periodic-return series [5]
(fewer than 2 points) the claim demands a Sharpe ratio of 0.0, but
PerformanceAnalyzer.calculate_sharpe_ratio guards only the empty series:
pandas std of one point is NaN, NaN == 0 is false, and the division
propagates NaN into the result (modelled as none), which is not 0.0. -/
theorem perf_sharpe_single_point_nan_cex :
    perfSharpe 6 [5] = none ∧ perfSharpe 6 [5] ≠ some 0 := by
  have h : perfSharpe 6 [5] = none := rfl
  exact ⟨h, by rw [h]; simp⟩

/-- Claim C3 amended: with at least 2 points and nonzero standard
deviation, PerformanceAnalyzer.calculate_sharpe_ratio equals
(mean(periodic - rf/12) / std(periodic)) * sqrt(12); it is 0.0 for an
empty series or zero standard deviation, but NaN (not 0.0) for exactly one
point; and MFAPIFetcher.calculate_risk_metrics divides by the annualized
standard deviation std*sqrt(12), so its Sharpe equals
mean(periodic - rf/12) / std(periodic) with the sqrt(12) factors
cancelled — not the claimed formula times sqrt(12). -/
theorem sharpe_formula_amended :
    (∀ (r : ℝ) (l : List ℝ), 2 ≤ l.length → sampleStdR l ≠ 0 →
      perfSharpe r l = some ((meanR l - r / 12) / sampleStdR l * Real.sqrt 12)) ∧
    (∀ r : ℝ, perfSharpe r [] = some 0) ∧
    (∀ (r : ℝ) (l : List ℝ), 2 ≤ l.length → sampleStdR l = 0 →
      perfSharpe r l = some 0) ∧
    (∀ r x : ℝ, perfSharpe r [x] = none) ∧
    (∀ (nav : List (ℤ × ℝ)) (r : ℝ),
      2 ≤ (pctChanges ((sortByDate nav).map (fun p => p.2))).length →
      0 < sampleStdR (pctChanges ((sortByDate nav).map (fun p => p.2))) →
      (mfRiskMetrics nav r).sharpe_ratio
        = (meanR (pctChanges ((sortByDate nav).map (fun p => p.2))) - r / 12)
          / sampleStdR (pctChanges ((sortByDate nav).map (fun p => p.2)))) :=
  ⟨perfSharpe_formula, fun _ => rfl, perfSharpe_zero_of_zero_std,
   fun _ _ => rfl, mfSharpe_no_annualization⟩

theorem sharpe_formula_amended_witness :
    2 ≤ ([1, 3] : List ℝ).length ∧ sampleStdR ([1, 3] : List ℝ) ≠ 0 ∧
    perfSharpe 6 [1, 3]
      = some ((meanR [1, 3] - 6 / 12) / sampleStdR [1, 3] * Real.sqrt 12) := by
  have hstd : sampleStdR ([1, 3] : List ℝ) = Real.sqrt 2 := by
    unfold sampleStdR sampleVarR meanR
    norm_num
  have hpos : (0 : ℝ) < Real.sqrt 2 := Real.sqrt_pos.mpr (by norm_num)
  refine ⟨by norm_num, ?_, ?_⟩
  · rw [hstd]
    exact ne_of_gt hpos
  · exact sharpe_formula_amended.1 6 [1, 3] (by norm_num)
      (by rw [hstd]; exact ne_of_gt hpos)

end MFA

namespace MFA

/- Helpers for the comprehensive-score claim: the truthiness-guarded code
terms agree with the claim-side terms except on a present value of exactly
0, which only matters for the standard-deviation term. -/

theorem compRetTerm_eq_spec (o : Option ℚ) (wg : ℚ) :
    compRetTerm o wg = specRetTerm o wg := by
  cases o with
  | none => rfl
  | some r =>
    by_cases h : r = 0
    · simp [compRetTerm, specRetTerm, h]
    · simp only [compRetTerm, specRetTerm, if_pos h]
      ring

theorem compSharpeTerm_eq_spec (o : Option ℚ) (wg : ℚ) :
    compSharpeTerm o wg = specSharpeTerm o wg := by
  cases o with
  | none => rfl
  | some r =>
    by_cases h : r = 0
    · simp only [compSharpeTerm, specSharpeTerm, h]
      norm_num [min_def]
    · simp only [compSharpeTerm, specSharpeTerm, if_pos h]

theorem compStdTerm_eq_spec (o : Option ℚ) (wg : ℚ) (h : o ≠ some 0) :
    compStdTerm o wg = specStdTerm o wg := by
  cases o with
  | none => rfl
  | some r =>
    have hr : r ≠ 0 := by
      intro h0
      exact h (by rw [h0])
    simp only [compStdTerm, specStdTerm, if_pos hr]

theorem compRiskTerm_eq_spec (o : Option ℚ) (wg : ℚ) :
    compRiskTerm o wg = specRiskTerm o wg := by
  cases o <;> rfl

/-- Claim C4 counterexample: on a fund whose only present metric is a
standard deviation of exactly 0, the truthiness guard skips the
inverse-volatility term entirely (score 0), while the claimed formula
awards its maximal contribution max(0, 1 - 0/30) x 0.10 x 100 = 10. -/
theorem comprehensive_score_zero_std_cex :
    calculateComprehensiveScore defaultWeights zeroStdFund
      ≠ specComprehensiveScore defaultWeights zeroStdFund := by
  norm_num [calculateComprehensiveScore, specComprehensiveScore, compRetTerm,
    compSharpeTerm, compStdTerm, compRiskTerm, specRetTerm, specSharpeTerm,
    specStdTerm, specRiskTerm, zeroStdFund, defaultWeights, min_def, max_def]

/-- Claim C4 amended: the comprehensive score is the claimed unnormalized
weighted sum capped at 100 — returns contributing return x weight,
Sharpe min(sharpe/2,1) x weight x 100, volatility
max(0, 1 - stddev/30) x weight x 100 and risk (1 - risk/100) x weight x 100
— provided the standard-deviation field is not a present 0: the code
guards returns, Sharpe and standard deviation by Python truthiness, which
coincides with the claim except for a present standard deviation of
exactly 0, which is skipped instead of contributing its maximum. -/
theorem comprehensive_score_formula_amended (w : RankWeights) (d : FundData)
    (h : d.standard_deviation ≠ some 0) :
    calculateComprehensiveScore w d = specComprehensiveScore w d := by
  unfold calculateComprehensiveScore specComprehensiveScore
  rw [compRetTerm_eq_spec, compRetTerm_eq_spec, compRetTerm_eq_spec,
    compSharpeTerm_eq_spec, compStdTerm_eq_spec _ _ h, compRiskTerm_eq_spec]

theorem comprehensive_score_formula_amended_witness :
    fullFund.standard_deviation ≠ some 0 ∧
    calculateComprehensiveScore defaultWeights fullFund
      = specComprehensiveScore defaultWeights fullFund :=
  ⟨by simp [fullFund],
   comprehensive_score_formula_amended defaultWeights fullFund (by simp [fullFund])⟩

/-- Claim C6: with the default weights 0.15/0.20/0.25 the returns-based
score is the weighted average of the non-null trailing returns divided by
the sum of the weights actually used, capped at 100 (Rat division by zero
makes the all-null case agree as well); and on Scenario B the fund with
returns 15/25/35 ranks first (scores 80/3 > 71/3 > 65/3, ranks 1..3). -/
theorem returns_score_weighted_average_and_scenarioB :
    (∀ d : FundData, calculateReturnsScore defaultWeights d
      = specReturnsScore defaultWeights d) ∧
    (rankFunds (calculateReturnsScore defaultWeights) [fundA, fundB, fundC]).map
      (fun t => t.1) = [fundB, fundC, fundA] ∧
    (rankFunds (calculateReturnsScore defaultWeights) [fundA, fundB, fundC]).map
      (fun t => t.2.2) = [1, 2, 3] := by
  refine ⟨?_, ?_, ?_⟩
  · intro d
    rcases d with ⟨r1, r3, r5, sh, sd, rs⟩
    cases r1 <;> cases r3 <;> cases r5 <;>
      norm_num [calculateReturnsScore, specReturnsScore, retContrib,
        defaultWeights]
  · norm_num [rankFunds, rankOrder, List.insertionSort, List.orderedInsert,
      calculateReturnsScore, retContrib, defaultWeights, fundA, fundB, fundC,
      List.enum]
  · norm_num [rankFunds, rankOrder, List.insertionSort, List.orderedInsert,
      calculateReturnsScore, retContrib, defaultWeights, fundA, fundB, fundC,
      List.enum]

end MFA

namespace MFA

/-- Claim C7: on periodic-return series long enough for the score to be
computed (at least 12 returns), with identical nonzero mean, the series
with strictly lower standard deviation has a consistency score
max(0, 100 - CV*50) at least as high as the other: a lower standard
deviation gives a lower coefficient of variation |std/mean| and the score
is antitone in it. -/
theorem consistency_score_monotone_in_dispersion
    (A B : List ℝ) (hA : 12 ≤ A.length) (hB : 12 ≤ B.length)
    (hmean : meanR A = meanR B) (hne : meanR A ≠ 0)
    (hstd : sampleStdR A < sampleStdR B) :
    consistencyCore B ≤ consistencyCore A := by
  have hBne : meanR B ≠ 0 := hmean ▸ hne
  have hA12 : ¬ (A.length < 12) := by omega
  have hB12 : ¬ (B.length < 12) := by omega
  unfold consistencyCore
  rw [if_neg hB12, if_neg hA12]
  dsimp only
  rw [if_neg hBne, if_neg hne]
  rw [← hmean]
  have hsA : (0 : ℝ) ≤ sampleStdR A := Real.sqrt_nonneg _
  have hsB : (0 : ℝ) ≤ sampleStdR B := Real.sqrt_nonneg _
  have hcv : |sampleStdR A / meanR A| ≤ |sampleStdR B / meanR A| := by
    rw [abs_div, abs_div]
    have hm : 0 < |meanR A| := abs_pos.mpr hne
    have hs : |sampleStdR A| ≤ |sampleStdR B| := by
      rw [abs_of_nonneg hsA, abs_of_nonneg hsB]
      exact hstd.le
    exact div_le_div_of_nonneg_right hs hm.le
  have h1 : 100 - |sampleStdR B / meanR A| * 50
      ≤ 100 - |sampleStdR A / meanR A| * 50 := by nlinarith
  exact min_le_min (max_le_max le_rfl h1) le_rfl

theorem consistency_score_monotone_in_dispersion_witness :
    meanR (List.replicate 12 (1 : ℝ)) ≠ 0 ∧
    sampleStdR (List.replicate 12 (1 : ℝ))
      < sampleStdR ((0 : ℝ) :: 2 :: List.replicate 10 1) ∧
    consistencyCore ((0 : ℝ) :: 2 :: List.replicate 10 1)
      ≤ consistencyCore (List.replicate 12 (1 : ℝ)) := by
  have hm1 : meanR (List.replicate 12 (1 : ℝ)) = 1 := by
    norm_num [meanR, List.sum_replicate, nsmul_eq_mul]
  have hm2 : meanR ((0 : ℝ) :: 2 :: List.replicate 10 1) = 1 := by
    norm_num [meanR, List.sum_cons, List.sum_replicate, nsmul_eq_mul]
  have hs1 : sampleStdR (List.replicate 12 (1 : ℝ)) = 0 := by
    unfold sampleStdR sampleVarR
    rw [hm1]
    norm_num [List.map_replicate, List.sum_replicate]
  have hs2 : (0 : ℝ) < sampleStdR ((0 : ℝ) :: 2 :: List.replicate 10 1) := by
    unfold sampleStdR sampleVarR
    rw [hm2]
    apply Real.sqrt_pos.mpr
    norm_num [List.map_cons, List.sum_cons, List.map_replicate,
      List.sum_replicate, nsmul_eq_mul]
  refine ⟨by rw [hm1]; norm_num, by rw [hs1]; exact hs2, ?_⟩
  exact consistency_score_monotone_in_dispersion _ _ (by simp) (by simp)
    (by rw [hm1, hm2]) (by rw [hm1]; norm_num) (by rw [hs1]; exact hs2)

end MFA

namespace MFA

/- Helpers for the ranking claim. -/

theorem map_getD_range {α : Type} (l : List α) (d : α) :
    (List.range l.length).map (fun i => l.getD i d) = l := by
  induction l with
  | nil => rfl
  | cons a t ih =>
    rw [List.length_cons, List.range_succ_eq_map, List.map_cons, List.map_map]
    refine congrArg₂ List.cons rfl ?_
    have hc : ((fun i => (a :: t).getD i d) ∘ Nat.succ) = fun i => t.getD i d := by
      funext i
      simp [List.getD_cons_succ]
    rw [hc, ih]

theorem enum_map_comp_snd {α β : Type} (l : List α) (g : α → β) :
    l.enum.map (fun pi => g pi.2) = l.map g := by
  rw [show (fun pi : ℕ × α => g pi.2) = g ∘ Prod.snd from rfl, ← List.map_map,
    List.enum_map_snd]

theorem enum_map_comp_fst {α β : Type} (l : List α) (g : ℕ → β) :
    l.enum.map (fun pi => g pi.1) = (List.range l.length).map g := by
  rw [show (fun pi : ℕ × α => g pi.1) = g ∘ Prod.fst from rfl, ← List.map_map,
    List.enum_map_fst]

theorem rankOrder_perm_range (score : FundData → ℚ) (funds : List FundData) :
    (rankOrder score funds).Perm (List.range funds.length) := by
  unfold rankOrder
  exact (List.reverse_perm _).trans (List.perm_insertionSort _ _)

theorem length_rankOrder (score : FundData → ℚ) (funds : List FundData) :
    (rankOrder score funds).length = funds.length :=
  ((rankOrder_perm_range score funds).length_eq).trans (List.length_range _)

/-- Claim C2 counterexample: two distinct funds with identical
returns-based score 10 come out of rank_funds in reversed input order —
pandas sort_values(ascending=False) reverses a stable ascending argsort, so
ties do not keep their relative order from the input. -/
theorem rank_ties_not_stable_cex :
    calculateReturnsScore defaultWeights tieFundFst
      = calculateReturnsScore defaultWeights tieFundSnd ∧
    (rankFunds (calculateReturnsScore defaultWeights)
      [tieFundFst, tieFundSnd]).map (fun t => t.1)
      = [tieFundSnd, tieFundFst] ∧
    tieFundFst ≠ tieFundSnd := by
  refine ⟨?_, ?_, ?_⟩
  · norm_num [calculateReturnsScore, retContrib, defaultWeights, tieFundFst,
      tieFundSnd]
  · norm_num [rankFunds, rankOrder, List.insertionSort, List.orderedInsert,
      calculateReturnsScore, retContrib, defaultWeights, tieFundFst,
      tieFundSnd, List.enum]
  · simp [tieFundFst, tieFundSnd]

/-- Claim C2 amended: rank_funds sorts descending by score and assigns rank
equal to the 1-based position in the sorted order, and the output rows are
a permutation of the input; but the sort is the reverse of a stable
ascending argsort (pandas nargsort with ascending=False; numpy's default
quicksort is insertion sort, hence stable, below 17 elements), so funds
with identical scores appear in reversed input order, not in input order. -/
theorem rank_funds_sorted_ranked_ties_reversed
    (score : FundData → ℚ) (funds : List FundData) :
    List.Sorted (fun a b : ℚ => b ≤ a)
      ((rankFunds score funds).map (fun t => t.2.1)) ∧
    (rankFunds score funds).map (fun t => t.2.2)
      = List.range' 1 funds.length ∧
    ((rankFunds score funds).map (fun t => t.1)).Perm funds ∧
    (∀ i j : ℕ, i < j → j < funds.length →
      (funds.map score).getD i 0 = (funds.map score).getD j 0 →
      [j, i].Sublist (rankOrder score funds)) := by
  haveI htot : IsTotal ℕ
      (fun i j => (funds.map score).getD i 0 ≤ (funds.map score).getD j 0) :=
    ⟨fun _ _ => le_total _ _⟩
  haveI htr : IsTrans ℕ
      (fun i j => (funds.map score).getD i 0 ≤ (funds.map score).getD j 0) :=
    ⟨fun _ _ _ hab hbc => le_trans hab hbc⟩
  have hsorted : List.Pairwise
      (fun i j => (funds.map score).getD j 0 ≤ (funds.map score).getD i 0)
      (rankOrder score funds) := by
    unfold rankOrder
    rw [List.pairwise_reverse]
    exact List.sorted_insertionSort _ _
  refine ⟨?_, ?_, ?_, ?_⟩
  · unfold rankFunds
    rw [List.map_map]
    rw [show ((fun t : FundData × ℚ × ℕ => t.2.1)
        ∘ fun pi : ℕ × ℕ => (funds.getD pi.2 emptyFund,
          (funds.map score).getD pi.2 0, pi.1 + 1))
        = fun pi : ℕ × ℕ => (funds.map score).getD pi.2 0 from rfl]
    have h1 : (rankOrder score funds).enum.map
        (fun pi => (funds.map score).getD pi.2 0)
        = (rankOrder score funds).map (fun i => (funds.map score).getD i 0) :=
      enum_map_comp_snd (rankOrder score funds)
        (fun i => (funds.map score).getD i 0)
    rw [h1]
    exact (List.pairwise_map).mpr hsorted
  · unfold rankFunds
    rw [List.map_map]
    rw [show ((fun t : FundData × ℚ × ℕ => t.2.2)
        ∘ fun pi : ℕ × ℕ => (funds.getD pi.2 emptyFund,
          (funds.map score).getD pi.2 0, pi.1 + 1))
        = fun pi : ℕ × ℕ => pi.1 + 1 from rfl]
    have h2 : (rankOrder score funds).enum.map (fun pi => pi.1 + 1)
        = (List.range (rankOrder score funds).length).map (fun i => i + 1) :=
      enum_map_comp_fst (rankOrder score funds) (fun i => i + 1)
    rw [h2, length_rankOrder, List.range'_eq_map_range]
    apply List.map_congr_left
    intro a _
    omega
  · unfold rankFunds
    rw [List.map_map]
    rw [show ((fun t : FundData × ℚ × ℕ => t.1)
        ∘ fun pi : ℕ × ℕ => (funds.getD pi.2 emptyFund,
          (funds.map score).getD pi.2 0, pi.1 + 1))
        = fun pi : ℕ × ℕ => funds.getD pi.2 emptyFund from rfl]
    have h3 : (rankOrder score funds).enum.map
        (fun pi => funds.getD pi.2 emptyFund)
        = (rankOrder score funds).map (fun i => funds.getD i emptyFund) :=
      enum_map_comp_snd (rankOrder score funds)
        (fun i => funds.getD i emptyFund)
    rw [h3]
    have hp := (rankOrder_perm_range score funds).map
      (fun i => funds.getD i emptyFund)
    rw [map_getD_range funds emptyFund] at hp
    exact hp
  · intro i j hij hj heq
    have hsub : [i, j].Sublist (List.range funds.length) := by
      have h1 : [i].Sublist (List.range j) :=
        List.singleton_sublist.mpr (List.mem_range.mpr hij)
      have h2 : ([i] ++ [j]).Sublist (List.range j ++ [j]) :=
        h1.append (List.Sublist.refl [j])
      rw [← List.range_succ] at h2
      exact h2.trans (List.range_sublist.mpr hj)
    have hins : [i, j].Sublist
        ((List.range funds.length).insertionSort
          (fun i j => (funds.map score).getD i 0 ≤ (funds.map score).getD j 0)) :=
      List.pair_sublist_insertionSort (le_of_eq heq) hsub
    unfold rankOrder
    rw [show [j, i] = ([i, j].reverse) from rfl]
    exact List.reverse_sublist.mpr hins

theorem rank_funds_sorted_ranked_ties_reversed_witness :
    ([tieFundFst, tieFundSnd].map
        (calculateReturnsScore defaultWeights)).getD 0 0
      = ([tieFundFst, tieFundSnd].map
        (calculateReturnsScore defaultWeights)).getD 1 0 ∧
    [1, 0].Sublist
      (rankOrder (calculateReturnsScore defaultWeights)
        [tieFundFst, tieFundSnd]) := by
  have hsc : ([tieFundFst, tieFundSnd].map
        (calculateReturnsScore defaultWeights)).getD 0 0
      = ([tieFundFst, tieFundSnd].map
        (calculateReturnsScore defaultWeights)).getD 1 0 := by
    norm_num [calculateReturnsScore, retContrib, defaultWeights, tieFundFst,
      tieFundSnd]
  exact ⟨hsc,
    (rank_funds_sorted_ranked_ties_reversed
      (calculateReturnsScore defaultWeights)
      [tieFundFst, tieFundSnd]).2.2.2 0 1 (by norm_num) (by norm_num) hsc⟩

end MFA
